import Mathlib

/-!
Verification of the order-pricing and withdrawal-policy core of the
"Digital Services Platform" backend (src/main.py, src/schemas.py).

Modelling conventions:
* Python floats (prices, discounts, tax rates, amounts) are modelled as
  exact rationals (ℚ); Python ints as ℤ.
* `datetime` timestamps are modelled as seconds since the epoch (ℤ);
  `timedelta(days := 5)` is `5 * 86400` seconds.
* Python's `round(x, 2)` is modelled as round-half-to-even at two decimal
  places (`round2` below), which is Python's documented rounding mode.
* The storage collaborator (`create_document`, from database.py, which is
  an external collaborator per the spec) is modelled by an explicit
  parameter `store : Option String`: `some wid` means the write succeeded
  and returned id `wid`; `none` means it raised an exception.
* pydantic's `EmailStr` validator is part of an external library, so it is
  modelled by an explicit parameter `emailOk : String → Bool`; `Literal`
  fields are modelled by membership in the literal's value list, which is
  the part of the validation that lives in src/schemas.py.
* Audit-log writes (`create_document('log', ...)`) sit inside an inner
  `try/except: pass`, so they cannot influence any returned value and are
  elided from the model.
-/

/-- Round-half-to-even to the nearest integer, as Python's builtin
`round` does (banker's rounding). -/
def roundHalfEven (q : ℚ) : ℤ :=
  if q - ⌊q⌋ < 1/2 then ⌊q⌋
  else if 1/2 < q - ⌊q⌋ then ⌊q⌋ + 1
  else if ⌊q⌋ % 2 = 0 then ⌊q⌋ else ⌊q⌋ + 1

/-- Python's `round(x, 2)`: round half to even at two decimal places. -/
def round2 (q : ℚ) : ℚ := (roundHalfEven (100 * q) : ℚ) / 100

/-- schemas.py `OrderItem`: `{sku, title, qty : int ≥ 1, unit_price : float ≥ 0}`.
The `ge` bounds are enforced by pydantic at request parsing; here they appear
as hypotheses where a claim needs them. -/
structure OrderItem where
  sku : String
  title : String
  qty : ℤ
  unit_price : ℚ
deriving DecidableEq, Repr

/-- main.py `CartPayload`: request body of `POST /api/orders/preview`. -/
structure CartPayload where
  items : List OrderItem
  discount : ℚ
  tax_rate : ℚ
deriving DecidableEq, Repr

/-- main.py:196 — `subtotal = sum(i.qty * i.unit_price for i in payload.items)`. -/
def previewSubtotal (p : CartPayload) : ℚ :=
  (p.items.map (fun i => (i.qty : ℚ) * i.unit_price)).sum

/-- main.py:197 — `tax = (subtotal - payload.discount) * payload.tax_rate`. -/
def previewTax (p : CartPayload) : ℚ :=
  (previewSubtotal p - p.discount) * p.tax_rate

/-- main.py:198 — `total = max(subtotal - payload.discount + tax, 0)`. -/
def previewTotal (p : CartPayload) : ℚ :=
  max (previewSubtotal p - p.discount + previewTax p) 0

/-- Response body of `POST /api/orders/preview` (main.py:199). -/
structure PreviewResponse where
  ok : Bool
  subtotal : ℚ
  discount : ℚ
  tax : ℚ
  total : ℚ
deriving DecidableEq, Repr

/-- main.py:194-199 — the `order_preview` handler:
`{"ok": True, "subtotal": round(subtotal,2), "discount": payload.discount,
  "tax": round(tax,2), "total": round(total,2)}`. -/
def order_preview (p : CartPayload) : PreviewResponse :=
  { ok := true
    subtotal := round2 (previewSubtotal p)
    discount := p.discount
    tax := round2 (previewTax p)
    total := round2 (previewTotal p) }

/-- The pricing algorithm's subtotal as the spec writes it:
`subtotal = Σ qty_i × unit_price_i`, written as a primitive recursion
so that agreement with the code's `sum(...)` is a proved fact. -/
def specSubtotal : List OrderItem → ℚ
  | [] => 0
  | i :: rest => (i.qty : ℚ) * i.unit_price + specSubtotal rest

/-- main.py `WithdrawRequest`: request body of `POST /api/withdrawals`.
`role` is a plain `str` here (unvalidated at the request boundary). -/
structure WithdrawRequest where
  actor_email : String
  amount : ℚ
  role : String
deriving DecidableEq, Repr

/-- The disposition triple assigned to a withdrawal: local variables
`status`, `note`, `scheduled_date` of `create_withdrawal` (main.py:264-266). -/
structure Disposition where
  status : String
  note : Option String
  scheduled_date : Option ℤ
deriving DecidableEq, Repr

/-- Seconds in a day: `timedelta(days=1)`. -/
def daySeconds : ℤ := 86400

/-- main.py:264-278 — the withdrawal if/elif/else ladder, extracted as the
pure decision function the spec calls `disposeWithdrawal(role, amount, now)`.
The locals start as `status='requested'`, `note=None`, `scheduled_date=None`
and every branch of the ladder overwrites `status` and `note`; only the
`reseller` branch sets `scheduled_date = now + timedelta(days=5)`.
`amount` is in scope (via `req.amount`) but unused by the ladder. -/
def disposeWithdrawal (role : String) (amount : ℚ) (now : ℤ) : Disposition :=
  let d : Disposition := { status := "requested", note := none, scheduled_date := none }
  let _ : ℚ := amount
  if role = "reseller" then
    { d with scheduled_date := some (now + 5 * daySeconds)
             status := "scheduled"
             note := some "Reseller T+5 payout scheduled" }
  else if role = "high_admin" then
    { d with status := "paid", note := some "High admin instant payout" }
  else
    { d with status := "approved", note := some "Approved by policy" }

/-- Modelled from the spec: the §4.2 policy table as an ordered match on
the role, first row wins, every role falling into exactly one row. Used
only to compare against the code's ladder. -/
def disposeWithdrawalSpecTable (role : String) (amount : ℚ) (now : ℤ) : Disposition :=
  let _ : ℚ := amount
  if role = "reseller" then
    { status := "scheduled"
      note := some "Reseller T+5 payout scheduled"
      scheduled_date := some (now + 5 * daySeconds) }
  else if role = "high_admin" then
    { status := "paid"
      note := some "High admin instant payout"
      scheduled_date := none }
  else
    { status := "approved"
      note := some "Approved by policy"
      scheduled_date := none }

/-- schemas.py:14 — the values of the `Role` literal type. -/
def roleValues : List String :=
  ["buyer", "reseller", "admin", "investor", "engineer", "high_admin", "owner"]

/-- schemas.py:57 — the values of the `Withdrawal.status` literal type. -/
def withdrawalStatusValues : List String :=
  ["requested", "approved", "rejected", "paid", "scheduled"]

/-- schemas.py:53-59 — the `Withdrawal` record handed to the storage
collaborator. -/
structure Withdrawal where
  actor_email : String
  amount : ℚ
  role : String
  status : String
  note : Option String
  scheduled_date : Option ℤ
deriving DecidableEq, Repr

/-- pydantic validation of a `Withdrawal` (schemas.py:53-59): `actor_email`
must satisfy `EmailStr` (modelled by the `emailOk` parameter), `role` must be
one of the `Role` literal values, `status` one of the status literal values.
`Withdrawal(...)` in main.py:281-288 raises `ValidationError` exactly when
this returns `false`. -/
def Withdrawal.pydanticValid (emailOk : String → Bool) (w : Withdrawal) : Bool :=
  emailOk w.actor_email && roleValues.contains w.role
    && withdrawalStatusValues.contains w.status

/-- Response body of a successful `POST /api/withdrawals` (main.py:301). -/
structure WithdrawResponse where
  ok : Bool
  id : String
  status : String
  scheduled_date : Option ℤ
deriving DecidableEq, Repr

/-- main.py:260-303 — the `create_withdrawal` handler. `now` is the value
`datetime.utcnow()` returns at main.py:263 (ambient clock state, not a field
of the request). The ladder computes the disposition; then, inside `try`,
a `Withdrawal` is constructed (pydantic validation may raise) and persisted
via `create_document` (may raise); any exception is re-raised as
`HTTPException(status_code=400)`, modelled as `.error 400`. -/
def create_withdrawal (emailOk : String → Bool) (req : WithdrawRequest)
    (now : ℤ) (store : Option String) : Except Nat WithdrawResponse :=
  let d := disposeWithdrawal req.role req.amount now
  let w : Withdrawal :=
    { actor_email := req.actor_email, amount := req.amount, role := req.role
      status := d.status, note := d.note, scheduled_date := d.scheduled_date }
  if w.pydanticValid emailOk then
    match store with
    | some wid => .ok { ok := true, id := wid, status := d.status
                        scheduled_date := d.scheduled_date }
    | none => .error 400
  else .error 400

/-- main.py `CheckoutPayload`: `CartPayload` plus optional email and
payment method. -/
structure CheckoutPayload where
  items : List OrderItem
  discount : ℚ
  tax_rate : ℚ
  user_email : Option String
  payment_method : Option String
deriving DecidableEq, Repr

/-- schemas.py:45 — the values of the `Order.payment_method` literal type. -/
def paymentMethodValues : List String := ["paypal", "robux", "manual"]

/-- schemas.py:37-45 — the `Order` record as built at main.py:209-218
(`payment_method` is `payload.payment_method or 'manual'`, so never absent). -/
structure Order where
  user_email : String
  items : List OrderItem
  subtotal : ℚ
  discount : ℚ
  tax : ℚ
  total : ℚ
  status : String
  payment_method : String
deriving DecidableEq, Repr

/-- pydantic validation of an `Order` (schemas.py:37-45): `user_email` must
satisfy `EmailStr`, `payment_method` must be a literal value (`status` is
always the literal `'pending'` here). -/
def Order.pydanticValid (emailOk : String → Bool) (o : Order) : Bool :=
  emailOk o.user_email && paymentMethodValues.contains o.payment_method

/-- Response body of `POST /api/checkout` (main.py:231/233). -/
structure CheckoutResponse where
  ok : Bool
  order_id : String
  client_secret : String
deriving DecidableEq, Repr

/-- main.py:205-233 — the `checkout` handler: totals from `order_preview`,
then inside `try` an `Order` is constructed (pydantic validation may raise)
and persisted via `create_document` (may raise); ANY exception falls back to
`{"ok": True, "order_id": "demo123", "client_secret": "demo_demo123"}`. -/
def checkout (emailOk : String → Bool) (p : CheckoutPayload)
    (store : Option String) : CheckoutResponse :=
  let summary := order_preview { items := p.items, discount := p.discount
                                 tax_rate := p.tax_rate }
  let o : Order :=
    { user_email := p.user_email.getD "guest@example.com", items := p.items
      subtotal := summary.subtotal, discount := summary.discount
      tax := summary.tax, total := summary.total
      status := "pending", payment_method := p.payment_method.getD "manual" }
  if o.pydanticValid emailOk then
    match store with
    | some oid => { ok := true, order_id := oid, client_secret := "demo_" ++ oid }
    | none => { ok := true, order_id := "demo123", client_secret := "demo_demo123" }
  else { ok := true, order_id := "demo123", client_secret := "demo_demo123" }

/-! ## Helper lemmas -/

/-- Round-half-to-even lands within half a unit of its argument. -/
theorem roundHalfEven_sub_abs_le (q : ℚ) : |(roundHalfEven q : ℚ) - q| ≤ 1/2 := by
  have h0 : (⌊q⌋ : ℚ) ≤ q := Int.floor_le q
  have h1 : q < ⌊q⌋ + 1 := Int.lt_floor_add_one q
  unfold roundHalfEven
  split_ifs with hlt hgt _hev <;> rw [abs_le] <;> push_cast <;>
    constructor <;> linarith

/-- `round2` moves its argument by at most half a cent. -/
theorem round2_sub_abs_le (q : ℚ) : |round2 q - q| ≤ 1/200 := by
  have h := roundHalfEven_sub_abs_le (100 * q)
  unfold round2
  rw [abs_le] at h ⊢
  constructor <;> [linarith [h.1]; linarith [h.2]]

/-- `round2` always produces an integer number of cents. -/
theorem round2_cents (q : ℚ) : ∃ k : ℤ, round2 q = (k : ℚ) / 100 :=
  ⟨roundHalfEven (100 * q), rfl⟩

theorem round2_zero : round2 0 = 0 := by
  norm_num [round2, roundHalfEven]

/-- The code's `sum(i.qty * i.unit_price for i in items)` agrees with the
spec's recursively written `Σ qty_i × unit_price_i`. -/
theorem sum_map_eq_specSubtotal (l : List OrderItem) :
    (l.map (fun i => (i.qty : ℚ) * i.unit_price)).sum = specSubtotal l := by
  induction l with
  | nil => simp [specSubtotal]
  | cons i rest ih => simp [specSubtotal, ih]

-- The spec's §8 concrete scenarios (7, 8, 9) and the tax-rate edge case,
-- checked against the embedded handlers.
example : order_preview ⟨[⟨"VPS-1", "VPS Nano", 2, 399/100⟩,
    ⟨"DM-1", ".com Domain", 1, 949/100⟩], 0, 1/10⟩
    = ⟨true, 1747/100, 0, 175/100, 1922/100⟩ := by
  norm_num [order_preview, previewSubtotal, previewTax, previewTotal, round2,
    roundHalfEven]

example : order_preview ⟨[⟨"X", "x", 1, 100⟩], 150, 1/10⟩
    = ⟨true, 100, 150, -5, 0⟩ := by
  norm_num [order_preview, previewSubtotal, previewTax, previewTotal, round2,
    roundHalfEven]

example : disposeWithdrawal "reseller" 50 1704067200
    = ⟨"scheduled", some "Reseller T+5 payout scheduled", some 1704499200⟩ := by
  decide

example : order_preview ⟨[], 1, -2⟩ = ⟨true, 0, 1, 2, 1⟩ := by
  norm_num [order_preview, previewSubtotal, previewTax, previewTotal, round2,
    roundHalfEven]

/-! ## Claims -/

/-- C1: for every list of line items (each with `qty ≥ 1` and
`unit_price ≥ 0`, possibly empty), every discount and every tax rate, the
pricing computation of `order_preview` yields
`subtotal = Σ qty_i × unit_price_i`,
`tax = (subtotal − discount) × tax_rate`, and
`total = max(subtotal − discount + tax, 0)`, with `tax` not clamped even
when negative (it equals the signed product exactly). -/
theorem pricing_formulas_correct (p : CartPayload)
    (_hItems : ∀ i ∈ p.items, 1 ≤ i.qty ∧ 0 ≤ i.unit_price) :
    previewSubtotal p = specSubtotal p.items
    ∧ previewTax p = (specSubtotal p.items - p.discount) * p.tax_rate
    ∧ previewTotal p =
        max (specSubtotal p.items - p.discount
          + (specSubtotal p.items - p.discount) * p.tax_rate) 0 := by
  have hs : previewSubtotal p = specSubtotal p.items :=
    sum_map_eq_specSubtotal p.items
  refine ⟨hs, ?_, ?_⟩
  · rw [previewTax, hs]
  · rw [previewTotal, previewTax, hs]

theorem pricing_formulas_correct_witness :
    (∀ i ∈ ([⟨"VPS-1", "VPS Nano", 2, 399/100⟩,
        ⟨"DM-1", ".com Domain", 1, 949/100⟩] : List OrderItem),
      1 ≤ i.qty ∧ 0 ≤ i.unit_price)
    ∧ (previewSubtotal ⟨[⟨"VPS-1", "VPS Nano", 2, 399/100⟩,
          ⟨"DM-1", ".com Domain", 1, 949/100⟩], 0, 1/10⟩
        = specSubtotal [⟨"VPS-1", "VPS Nano", 2, 399/100⟩,
          ⟨"DM-1", ".com Domain", 1, 949/100⟩]
      ∧ previewTax ⟨[⟨"VPS-1", "VPS Nano", 2, 399/100⟩,
          ⟨"DM-1", ".com Domain", 1, 949/100⟩], 0, 1/10⟩
        = (specSubtotal [⟨"VPS-1", "VPS Nano", 2, 399/100⟩,
          ⟨"DM-1", ".com Domain", 1, 949/100⟩] - 0) * (1/10)
      ∧ previewTotal ⟨[⟨"VPS-1", "VPS Nano", 2, 399/100⟩,
          ⟨"DM-1", ".com Domain", 1, 949/100⟩], 0, 1/10⟩
        = max (specSubtotal [⟨"VPS-1", "VPS Nano", 2, 399/100⟩,
            ⟨"DM-1", ".com Domain", 1, 949/100⟩] - 0
          + (specSubtotal [⟨"VPS-1", "VPS Nano", 2, 399/100⟩,
            ⟨"DM-1", ".com Domain", 1, 949/100⟩] - 0) * (1/10)) 0) :=
  ⟨by intro i hi; fin_cases hi <;> constructor <;> norm_num,
   pricing_formulas_correct
     ⟨[⟨"VPS-1", "VPS Nano", 2, 399/100⟩, ⟨"DM-1", ".com Domain", 1, 949/100⟩],
      0, 1/10⟩
     (by intro i hi; fin_cases hi <;> constructor <;> norm_num)⟩

/-- C2: for every role, amount and timestamp `now`, the withdrawal
disposition ladder of `create_withdrawal` computes exactly the spec's
policy table (an ordered match, first row wins): `reseller` ↦
(`scheduled`, "Reseller T+5 payout scheduled", `now + 5 days`);
`high_admin` ↦ (`paid`, "High admin instant payout", no date); any other
role ↦ (`approved`, "Approved by policy", no date) — and the result is
always exactly one of these three pairwise-distinct dispositions. -/
theorem withdrawal_policy_table_correct (role : String) (amount : ℚ) (now : ℤ) :
    disposeWithdrawal role amount now = disposeWithdrawalSpecTable role amount now
    ∧ (disposeWithdrawal role amount now
        = ⟨"scheduled", some "Reseller T+5 payout scheduled",
            some (now + 5 * daySeconds)⟩
      ∨ disposeWithdrawal role amount now
        = ⟨"paid", some "High admin instant payout", none⟩
      ∨ disposeWithdrawal role amount now
        = ⟨"approved", some "Approved by policy", none⟩)
    ∧ (⟨"scheduled", some "Reseller T+5 payout scheduled",
          some (now + 5 * daySeconds)⟩ : Disposition)
        ≠ ⟨"paid", some "High admin instant payout", none⟩
    ∧ (⟨"scheduled", some "Reseller T+5 payout scheduled",
          some (now + 5 * daySeconds)⟩ : Disposition)
        ≠ ⟨"approved", some "Approved by policy", none⟩
    ∧ (⟨"paid", some "High admin instant payout", none⟩ : Disposition)
        ≠ ⟨"approved", some "Approved by policy", none⟩ := by
  refine ⟨?_, ?_, by simp, by simp, by simp⟩
  · simp only [disposeWithdrawal, disposeWithdrawalSpecTable]
  · simp only [disposeWithdrawal]
    split_ifs <;> simp

/-- C3 counterexample: with no items, discount 1 and tax rate −2, the
discount (1) exceeds the subtotal (0), yet the returned total is 1, not 0:
the claim "for every tax_rate, discount > subtotal implies total = 0" is
false on the code. -/
theorem discount_overshoot_cex :
    previewSubtotal ⟨[], 1, -2⟩ < (CartPayload.mk [] 1 (-2)).discount
    ∧ (order_preview ⟨[], 1, -2⟩).total = 1 := by
  constructor
  · norm_num [previewSubtotal]
  · norm_num [order_preview, previewSubtotal, previewTax, previewTotal,
      round2, roundHalfEven]

/-- C3 amended: for every list of line items and every tax rate ≥ −1,
whenever the caller-supplied discount exceeds the subtotal the computed
total equals 0 (never negative), even though the computed tax is negative
before the final clamping whenever the tax rate is positive.  (The original
claim quantified over every tax rate; a tax rate below −1 makes the
pre-clamp total positive again, see the counterexample.) -/
theorem discount_overshoot_total_clamped (p : CartPayload)
    (hRate : -1 ≤ p.tax_rate) (hOver : previewSubtotal p < p.discount) :
    previewTotal p = 0 ∧ (order_preview p).total = 0
    ∧ (0 < p.tax_rate → previewTax p < 0) := by
  have hneg : previewSubtotal p - p.discount < 0 := by linarith
  have hfac : (previewSubtotal p - p.discount) * (1 + p.tax_rate) ≤ 0 :=
    mul_nonpos_of_nonpos_of_nonneg (le_of_lt hneg) (by linarith)
  have htot : previewTotal p = 0 := by
    rw [previewTotal, previewTax, max_eq_right]
    nlinarith
  refine ⟨htot, ?_, ?_⟩
  · show round2 (previewTotal p) = 0
    rw [htot, round2_zero]
  · intro hpos
    rw [previewTax]
    exact mul_neg_of_neg_of_pos hneg hpos

theorem discount_overshoot_total_clamped_witness :
    (-1 ≤ (CartPayload.mk [⟨"X", "x", 1, 100⟩] 150 (1/10)).tax_rate)
    ∧ (previewSubtotal ⟨[⟨"X", "x", 1, 100⟩], 150, 1/10⟩
        < (CartPayload.mk [⟨"X", "x", 1, 100⟩] 150 (1/10)).discount)
    ∧ (previewTotal ⟨[⟨"X", "x", 1, 100⟩], 150, 1/10⟩ = 0
      ∧ (order_preview ⟨[⟨"X", "x", 1, 100⟩], 150, 1/10⟩).total = 0
      ∧ (0 < (CartPayload.mk [⟨"X", "x", 1, 100⟩] 150 (1/10)).tax_rate →
          previewTax ⟨[⟨"X", "x", 1, 100⟩], 150, 1/10⟩ < 0)) :=
  ⟨by norm_num, by norm_num [previewSubtotal],
   discount_overshoot_total_clamped ⟨[⟨"X", "x", 1, 100⟩], 150, 1/10⟩
     (by norm_num) (by norm_num [previewSubtotal])⟩

/-- C4 counterexample: with discount 0.333 the response's `discount` field
is 0.333, not its two-decimal rounding 0.33: the claim that all four output
fields are rounded to 2 decimal places is false on the code — the
`discount` field is passed through unrounded. -/
theorem discount_not_rounded_cex :
    (order_preview ⟨[], 333/1000, 1/10⟩).discount
      ≠ round2 ((CartPayload.mk [] (333/1000) (1/10)).discount) := by
  show (333 : ℚ)/1000 ≠ round2 (333/1000)
  norm_num [round2, roundHalfEven]

/-- C4 amended: for every input, the `subtotal`, `tax` and `total` output
fields are the two-decimal (banker's) rounding of the full-precision
internal values — each is an integer number of cents within half a cent of
the exact value — while the `discount` field is passed through unrounded.
(The original claim said all four fields are rounded; `discount` is not.) -/
theorem rounding_policy (p : CartPayload) :
    (order_preview p).subtotal = round2 (previewSubtotal p)
    ∧ (order_preview p).tax = round2 (previewTax p)
    ∧ (order_preview p).total = round2 (previewTotal p)
    ∧ (order_preview p).discount = p.discount
    ∧ (∃ k : ℤ, (order_preview p).subtotal = (k : ℚ) / 100)
    ∧ |(order_preview p).subtotal - previewSubtotal p| ≤ 1/200
    ∧ (∃ k : ℤ, (order_preview p).tax = (k : ℚ) / 100)
    ∧ |(order_preview p).tax - previewTax p| ≤ 1/200
    ∧ (∃ k : ℤ, (order_preview p).total = (k : ℚ) / 100)
    ∧ |(order_preview p).total - previewTotal p| ≤ 1/200 :=
  ⟨rfl, rfl, rfl, rfl,
   round2_cents (previewSubtotal p), round2_sub_abs_le (previewSubtotal p),
   round2_cents (previewTax p), round2_sub_abs_le (previewTax p),
   round2_cents (previewTotal p), round2_sub_abs_le (previewTotal p)⟩

/-- C5 (code bug): the claim says an unrecognized role string is never
rejected outright and receives status `approved`. The decision ladder does
assign `approved` (the intent), but `Withdrawal` in schemas.py types `role`
as the `Role` literal, so `Withdrawal(...)` in main.py:281 raises a
pydantic `ValidationError` for any role outside the literal, which the
`except` at main.py:302-303 turns into `HTTPException(400)`: the request IS
rejected outright. Concretely, role `"hacker"` (valid email, storage
healthy or not) always yields error 400 even though its computed
disposition is `approved`. -/
theorem unrecognized_role_rejected :
    (∀ now store, create_withdrawal (fun _ => true)
        ⟨"user@example.com", 10, "hacker"⟩ now store = .error 400)
    ∧ (∀ amount now, (disposeWithdrawal "hacker" amount now).status = "approved")
    ∧ roleValues.contains "hacker" = false := by
  refine ⟨?_, ?_, by decide⟩
  · intro now store
    simp [create_withdrawal, Withdrawal.pydanticValid, roleValues]
  · intro amount now
    simp [disposeWithdrawal]

/-- C6: for every role, amount and timestamp, the disposition produced by
the withdrawal policy ladder has `scheduled_date` present if and only if
its status is `scheduled`. -/
theorem scheduled_date_iff_scheduled (role : String) (amount : ℚ) (now : ℤ) :
    (disposeWithdrawal role amount now).scheduled_date.isSome = true
      ↔ (disposeWithdrawal role amount now).status = "scheduled" := by
  simp only [disposeWithdrawal]
  split_ifs <;> simp

/-- C7 counterexample: two `create_withdrawal` calls with the identical
request (`actor_email`, `amount`, `role` — all the explicit inputs of
`POST /api/withdrawals`), identical email validation and identical storage
outcome, return different responses when the ambient clock read at
main.py:263 (`datetime.utcnow()`) differs: `now` is ambient state, not an
explicit input, so the disposition is not a function of the explicit
inputs alone. -/
theorem ambient_clock_cex :
    create_withdrawal (fun _ => true) ⟨"reseller@example.com", 50, "reseller"⟩
        1704067200 (some "w1")
      ≠ create_withdrawal (fun _ => true) ⟨"reseller@example.com", 50, "reseller"⟩
        1704067260 (some "w1") := by
  have h1 : create_withdrawal (fun _ => true)
      ⟨"reseller@example.com", 50, "reseller"⟩ 1704067200 (some "w1")
      = .ok ⟨true, "w1", "scheduled", some 1704499200⟩ := by
    simp [create_withdrawal, Withdrawal.pydanticValid, disposeWithdrawal,
      daySeconds, roleValues, withdrawalStatusValues]
  have h2 : create_withdrawal (fun _ => true)
      ⟨"reseller@example.com", 50, "reseller"⟩ 1704067260 (some "w1")
      = .ok ⟨true, "w1", "scheduled", some 1704499260⟩ := by
    simp [create_withdrawal, Withdrawal.pydanticValid, disposeWithdrawal,
      daySeconds, roleValues, withdrawalStatusValues]
  rw [h1, h2]
  simp

/-- C7 amended: the withdrawal disposition is a pure, deterministic
function of `(role, now)` — in particular independent of the requested
amount — but in the code `now` is read from the ambient clock
(`datetime.utcnow()`, main.py:263) inside `create_withdrawal` rather than
being an explicit request input; two evaluations with identical role and
identical ambient `now` yield identical output. -/
theorem disposition_deterministic (role : String) (amount amount' : ℚ)
    (now : ℤ) :
    disposeWithdrawal role amount now = disposeWithdrawal role amount' now := rfl

/-- C8: when the storage collaborator fails (raises) during checkout, the
`checkout` handler still returns the success-shaped response with the
locally fabricated placeholder order id `"demo123"` (main.py:232-233);
when storage fails during withdrawal creation, `create_withdrawal`
surfaces the failure to the caller as `HTTPException(400)`
(main.py:302-303) — the asymmetry is in the code. -/
theorem storage_failure_asymmetry (emailOk : String → Bool)
    (p : CheckoutPayload) (req : WithdrawRequest) (now : ℤ) :
    checkout emailOk p none
      = { ok := true, order_id := "demo123", client_secret := "demo_demo123" }
    ∧ create_withdrawal emailOk req now none = .error 400 := by
  constructor
  · simp only [checkout]
    split_ifs <;> rfl
  · simp only [create_withdrawal]
    split_ifs <;> rfl

/-- C9: for every role, amount and timestamp, the disposition's note is
present and is one of the three fixed strings, and the statuses
`requested` (the schema default) and `rejected` are never produced by the
ladder. -/
theorem note_always_present (role : String) (amount : ℚ) (now : ℤ) :
    ((disposeWithdrawal role amount now).note
        = some "Reseller T+5 payout scheduled"
      ∨ (disposeWithdrawal role amount now).note
        = some "High admin instant payout"
      ∨ (disposeWithdrawal role amount now).note = some "Approved by policy")
    ∧ (disposeWithdrawal role amount now).note ≠ none
    ∧ (disposeWithdrawal role amount now).status ≠ "requested"
    ∧ (disposeWithdrawal role amount now).status ≠ "rejected" := by
  simp only [disposeWithdrawal]
  split_ifs <;> simp

/-- C10: the `discount` field of the pricing preview response equals the
caller-supplied discount exactly as given, independent of the items and
the tax rate. -/
theorem discount_passthrough (items : List OrderItem) (d t : ℚ) :
    (order_preview ⟨items, d, t⟩).discount = d := rfl
